import Mathlib

/-!
Shallow embedding of the `appliance` actor framework (src/src/lib.rs and
src/src/error.rs) together with proofs about the properties its
specification states.

The mailbox is flume's MPSC channel; it is external to the repository and
is modelled at its documented interface: a FIFO queue with an optional
capacity, a strong-sender count and a receiver-liveness flag.  Time is
abstracted as `Nat` ticks; the eventual behaviour of a one-shot reply
channel, as observed by a waiting caller, is a `ReplyEvent`.
-/

namespace Appliance

/-- Error taxonomy of src/src/error.rs (`enum Error`). -/
inductive Error where
  | FullBuffer
  | Timeout
  | UnexpectedFailure
  | Stopped
deriving DecidableEq, Repr

/-- flume's `TrySendError`: the rejected message is handed back to the caller. -/
inductive TrySendError (α : Type) where
  | Full (msg : α)
  | Disconnected (msg : α)
deriving DecidableEq, Repr

/-- The conversion `impl From<TrySendError<T>> for Error` of src/src/error.rs
(lines 37-44): a full buffer becomes `FullBuffer`, a disconnected channel
becomes `Stopped`.  (The send paths in src/src/lib.rs match on
`TrySendError` directly instead of going through this conversion.) -/
def Error.fromTrySendError {α : Type} : TrySendError α → Error
  | .Full _ => .FullBuffer
  | .Disconnected _ => .Stopped

/-- The mailbox channel (flume `bounded`/`unbounded`), modelled at its
interface: `cap = none` is unbounded; `queue` is the FIFO backlog;
`senders` counts the strong references to the sending side (one per live
`ApplianceHandle`); `receiverAlive` records whether the receiving side
(the appliance loop) still exists. -/
structure Chan (α : Type) where
  cap : Option Nat
  queue : List α
  senders : Nat
  receiverAlive : Bool

/-- Whether a bounded channel is at capacity. -/
def Chan.isFull {α : Type} (c : Chan α) : Bool :=
  match c.cap with
  | some k => decide (k ≤ c.queue.length)
  | none => false

/-- flume `Sender::try_send`: never blocks; fails with `Disconnected` when
the receiver is gone, with `Full` when a bounded queue is at capacity, and
otherwise appends the message to the tail of the queue. -/
def Chan.trySend {α : Type} (c : Chan α) (x : α) : Chan α × Except (TrySendError α) Unit :=
  if c.receiverAlive = false then (c, .error (.Disconnected x))
  else if c.isFull then (c, .error (.Full x))
  else ({ c with queue := c.queue ++ [x] }, .ok ())

/-- flume `Sender::send_async`: a suspending send.  While a bounded queue
is at capacity the caller suspends until there is room; the operation can
only complete in one of two ways: the message enqueued at the tail, or an
error because the receiver was dropped.  Only the completion outcome is
visible to the pure model. -/
def Chan.sendAsync {α : Type} (c : Chan α) (x : α) : Except Unit (Chan α) :=
  if c.receiverAlive then .ok { c with queue := c.queue ++ [x] } else .error ()

/-- What the appliance loop's `out_.recv_async()` yields: the head
envelope if one is queued; `closed` when the queue is empty and every
sender has been dropped; otherwise the loop stays suspended (`blocked`). -/
inductive RecvOutcome (α : Type) where
  | msg (x : α) (rest : Chan α)
  | closed
  | blocked

/-- The loop side receive of the mailbox (flume `Receiver::recv_async`):
queued messages are still delivered after the senders are gone; only an
empty, sender-less channel reports disconnection. -/
def Chan.recvAsync {α : Type} (c : Chan α) : RecvOutcome α :=
  match c.queue with
  | x :: rest => .msg x { c with queue := rest }
  | [] => if c.senders = 0 then .closed else .blocked

/-- The exit test of `Appliance::handle_messages` (src/src/lib.rs:262-267):
the `while let Ok(..)` loop ends exactly when the receive reports the
channel closed. -/
def loopExits {α : Type} (c : Chan α) : Bool :=
  match c.recvAsync with
  | .closed => true
  | _ => false

/-- The eventual behaviour of the one-shot reply channel as seen by the
waiting caller: either the handler result `r` becomes available at tick
`t`, or the sending side is dropped at tick `t` without a value having
been sent (the appliance terminated, or the envelope was dropped
undelivered). -/
inductive ReplyEvent (R : Type) where
  | arrival (t : Nat) (r : R)
  | droppedAt (t : Nat)

/-- Outcomes of flume's blocking `Receiver::recv_timeout`. -/
inductive RecvTimeoutResult (R : Type) where
  | ok (r : R)
  | timeout
  | disconnected
deriving DecidableEq, Repr

/-- flume `Receiver::recv_timeout` with deadline `d`, paired with the time
the caller spent waiting: the first of reply arrival, sender drop and
deadline expiry wins; `timeout` is reported only once the full deadline
`d` has elapsed. -/
def recvTimeout {R : Type} (ev : ReplyEvent R) (d : Nat) : RecvTimeoutResult R × Nat :=
  match ev with
  | .arrival t r => if t ≤ d then (.ok r, t) else (.timeout, d)
  | .droppedAt t => if t ≤ d then (.disconnected, t) else (.timeout, d)

/-- flume `Receiver::recv` without a deadline: waits until a value arrives
or the sending side is dropped. -/
def recvForever {R : Type} (ev : ReplyEvent R) : RecvTimeoutResult R :=
  match ev with
  | .arrival _ r => .ok r
  | .droppedAt _ => .disconnected

/-- The `or(f1, f2)` race of src/src/lib.rs:381-390 (futures_lite), paired
with the time spent suspended: `f1` awaits the reply, `f2` awaits the
timer and then yields `Err(Timeout)`.  `or` polls `f1` first, so at a tie
the reply wins; the losing future is dropped without further effect.
`Timeout` is produced only when the timer fired, after exactly `d` ticks. -/
def raceReplyTimer {R : Type} (ev : ReplyEvent R) (d : Nat) : Except Error R × Nat :=
  match ev with
  | .arrival t r => if t ≤ d then (.ok r, t) else (.error .Timeout, d)
  | .droppedAt t => if t ≤ d then (.error .UnexpectedFailure, t) else (.error .Timeout, d)

/-- One-shot reply channel state (the `bounded(1)` pair created per
wait-style send), as the appliance side sees it: the slot value and
whether the caller's receiving end still exists. -/
structure ReplySlot (R : Type) where
  value : Option R
  receiverAlive : Bool
deriving DecidableEq, Repr

/-- The reply delivery `rc.send(result).ok()` of src/src/lib.rs:168: the
value is stored when the receiver still listens and silently discarded
otherwise; the `.ok()` swallows the error, so the operation is total and
reports nothing to the loop. -/
def ReplySlot.sendOk {R : Type} (s : ReplySlot R) (r : R) : ReplySlot R :=
  if s.receiverAlive then { s with value := some r } else s

/-- The type-erased envelope `InnerMessage` (src/src/lib.rs:155-157): a
single-use closure over the captured message.  Invoking it against the
appliance returns the updated appliance together with the value it
attempts to push into the reply channel (`none` when no reply channel was
attached at construction). -/
structure InnerMessage (H R : Type) where
  handle_message : H → H × Option R

/-- `InnerMessage::new` (src/src/lib.rs:159-173): captures the message and
the optional reply sender; the closure runs `message.handle_by(handler)`
and, when a reply channel is present, sends the result into it.
`handle_by` is the dispatch capability, a function `M → H → H × R` (the
handler mutates the appliance and produces the result). -/
def InnerMessage.new {M H R : Type} (handle_by : M → H → H × R) (message : M)
    (hasReplyChannel : Bool) : InnerMessage H R :=
  ⟨fun h =>
    let p := handle_by message h
    (p.1, if hasReplyChannel then some p.2 else none)⟩

/-- One iteration of `Appliance::handle_messages` on an envelope that
carries a reply sender for `slot`: the loop invokes the closure against
the state, and the closure pushes the handler result into the slot with
`send(..).ok()`. -/
def processWaitEnvelope {M H R : Type} (handle_by : M → H → H × R) (message : M)
    (h : H) (slot : ReplySlot R) : H × ReplySlot R :=
  let env := InnerMessage.new handle_by message true
  match env.handle_message h with
  | (h2, some r) => (h2, slot.sendOk r)
  | (h2, none) => (h2, slot)

/-- `Appliance::run` (src/src/lib.rs:219-240): builds the mailbox, wraps
the sending side in the first strong handle (`Arc::new`), stores only a
downgraded weak reference inside the appliance (`Arc::downgrade`), and
spawns the single loop task.  The weak self-reference contributes nothing
to the strong count, so the channel starts with exactly one sender. -/
def runConstruct (α : Type) (cap : Option Nat) : Chan α :=
  { cap := cap, queue := [], senders := 1, receiverAlive := true }

/-- `ApplianceHandle::clone` (src/src/lib.rs:293-299): one more strong
reference to the sending side. -/
def cloneHandle {α : Type} (c : Chan α) : Chan α :=
  { c with senders := c.senders + 1 }

/-- Dropping an `ApplianceHandle`: one fewer strong reference; when the
count reaches zero the sending side is released and the channel closes
for the receiver. -/
def dropHandle {α : Type} (c : Chan α) : Chan α :=
  { c with senders := c.senders - 1 }

/-- Clone the handle `n` times. -/
def cloneHandles {α : Type} : Nat → Chan α → Chan α
  | 0, c => c
  | n + 1, c => cloneHandles n (cloneHandle c)

/-- Drop `n` handles. -/
def dropHandles {α : Type} : Nat → Chan α → Chan α
  | 0, c => c
  | n + 1, c => dropHandles n (dropHandle c)

/-- `ApplianceHandle::send_sync` (src/src/lib.rs:304-313): a non-blocking
`try_send` with no reply channel; `Full` maps to `Error::FullBuffer` and
`Disconnected` to `Error::UnexpectedFailure`. -/
def send_sync {α : Type} (c : Chan α) (x : α) : Chan α × Except Error Unit :=
  match c.trySend x with
  | (c2, .ok _) => (c2, .ok ())
  | (c2, .error (.Full _)) => (c2, .error .FullBuffer)
  | (c2, .error (.Disconnected _)) => (c2, .error .UnexpectedFailure)

/-- `ApplianceHandle::send_async` (src/src/lib.rs:317-325): a suspending
send with no reply channel; any send failure maps to
`Error::UnexpectedFailure`. -/
def send_async {α : Type} (c : Chan α) (x : α) : Chan α × Except Error Unit :=
  match c.sendAsync x with
  | .ok c2 => (c2, .ok ())
  | .error _ => (c, .error .UnexpectedFailure)

/-- `ApplianceHandle::send_and_wait_sync` (src/src/lib.rs:336-359): create
a fresh one-shot reply channel, `try_send` the envelope (reporting
`FullBuffer` or `UnexpectedFailure` immediately on enqueue failure), then
block on the reply with an optional timeout.  `ev` is the eventual
behaviour of the reply channel. -/
def send_and_wait_sync {α R : Type} (c : Chan α) (x : α) (ev : ReplyEvent R)
    (timeout : Option Nat) : Except Error R :=
  match (c.trySend x).2 with
  | .error (.Full _) => .error .FullBuffer
  | .error (.Disconnected _) => .error .UnexpectedFailure
  | .ok _ =>
    match timeout with
    | some d =>
      match (recvTimeout ev d).1 with
      | .ok r => .ok r
      | .timeout => .error .Timeout
      | .disconnected => .error .UnexpectedFailure
    | none =>
      match recvForever ev with
      | .ok r => .ok r
      | .timeout => .error .Timeout
      | .disconnected => .error .UnexpectedFailure

/-- `ApplianceHandle::send_and_wait_async` (src/src/lib.rs:364-396):
create a fresh one-shot reply channel, send the envelope with the
suspending `send_async` (any send failure maps to `UnexpectedFailure`),
then either race the reply against a timer or await the reply forever. -/
def send_and_wait_async {α R : Type} (c : Chan α) (x : α) (ev : ReplyEvent R)
    (timeout : Option Nat) : Except Error R :=
  match c.sendAsync x with
  | .error _ => .error .UnexpectedFailure
  | .ok _ =>
    match timeout with
    | some d => (raceReplyTimer ev d).1
    | none =>
      match recvForever ev with
      | .ok r => .ok r
      | .timeout => .error .Timeout
      | .disconnected => .error .UnexpectedFailure

/-- `Appliance::handle_messages` (src/src/lib.rs:262-267) over the
envelopes presently queued, with an envelope abstracted as the state
transformer its `handle_message(self)` performs: the single loop task
pulls one envelope at a time and runs it to completion before the next
receive. -/
def handleMessages {S M : Type} (handler : S → M → S) : S → List M → S
  | s, [] => s
  | s, m :: ms => handleMessages handler (handler s m) ms

/-- One iteration of the message loop as a transition over
(state, pending queue): the body of the `while let` in
`Appliance::handle_messages`.  `run` spawns exactly one such loop task per
appliance (src/src/lib.rs:236-238), so this relation is the only source
of state mutation. -/
inductive LoopStep {S M : Type} (handler : S → M → S) :
    S × List M → S × List M → Prop where
  | handle (s : S) (m : M) (ms : List M) :
      LoopStep handler (s, m :: ms) (handler s m, ms)

/-- The invocation trace of the loop: which envelope ran and the state it
produced, in execution order. -/
def loopTrace {S M : Type} (handler : S → M → S) : S → List M → List (M × S)
  | _, [] => []
  | s, m :: ms => (m, handler s m) :: loopTrace handler (handler s m) ms

/-- Repeated `send_sync` calls through one handle, in program order,
collecting each call's result. -/
def sendSeq {α : Type} (c : Chan α) : List α → Chan α × List (Except Error Unit)
  | [] => (c, [])
  | x :: xs =>
    let p := send_sync c x
    let q := sendSeq p.1 xs
    (q.1, p.2 :: q.2)

/-- `Appliance::handle_messages` when a handler invocation may unwind
(modelled as the handler returning `none`): the loop body
`handle_message(self)` contains no catch, so an unwinding invocation
aborts the whole loop; the function returns the loop outcome (`none` when
it unwound) together with the envelopes that were still queued and are
dropped undelivered. -/
def handleMessagesUnwind {S M : Type} (handler : S → M → Option S) :
    S → List M → Option S × List M
  | s, [] => (some s, [])
  | s, m :: ms =>
    match handler s m with
    | some s2 => handleMessagesUnwind handler s2 ms
    | none => (none, ms)

/-! Helper lemmas (shared; not tied to a single claim). -/

/-- The loop trace visits the queued envelopes in queue order. -/
theorem loopTrace_map_fst {S M : Type} (handler : S → M → S) :
    ∀ (msgs : List M) (s : S), (loopTrace handler s msgs).map Prod.fst = msgs := by
  intro msgs
  induction msgs with
  | nil => intro s; rfl
  | cons m ms ih => intro s; simp [loopTrace, ih]

/-- On an open unbounded channel every `send_sync` succeeds and the
messages are appended to the queue tail in program order. -/
theorem sendSeq_unbounded {α : Type} :
    ∀ (msgs : List α) (c : Chan α), c.receiverAlive = true → c.cap = none →
      (sendSeq c msgs).1.queue = c.queue ++ msgs ∧
        (sendSeq c msgs).2 = List.replicate msgs.length (Except.ok ()) := by
  intro msgs
  induction msgs with
  | nil => intro c _ _; simp [sendSeq]
  | cons x xs ih =>
    intro c hAlive hCap
    have hfull : c.isFull = false := by simp [Chan.isFull, hCap]
    have hsend : send_sync c x = ({ c with queue := c.queue ++ [x] }, .ok ()) := by
      simp [send_sync, Chan.trySend, hAlive, hfull]
    have := ih { c with queue := c.queue ++ [x] } hAlive hCap
    simp only [sendSeq, hsend]
    constructor
    · rw [this.1]; simp
    · simp [this.2, List.replicate]

/-- On an open channel of capacity `k`, a batch of sends that overfills
the queue by exactly one message yields successes until the queue is at
capacity and then a single `FullBuffer` rejection. -/
theorem sendSeq_bounded_overfill {α : Type} (k : Nat) :
    ∀ (xs : List α) (c : Chan α), c.receiverAlive = true → c.cap = some k →
      c.queue.length ≤ k → c.queue.length + xs.length = k + 1 →
      (sendSeq c xs).2 =
        List.replicate (k - c.queue.length) (Except.ok ()) ++
          [Except.error Error.FullBuffer] := by
  intro xs
  induction xs with
  | nil =>
    intro c _ _ hle hlen
    exfalso
    simp at hlen
    omega
  | cons x rest ih =>
    intro c hAlive hCap hle hlen
    simp only [List.length_cons] at hlen
    by_cases hq : c.queue.length < k
    · have hfull : c.isFull = false := by
        simp [Chan.isFull, hCap]; omega
      have hsend : send_sync c x = ({ c with queue := c.queue ++ [x] }, .ok ()) := by
        simp [send_sync, Chan.trySend, hAlive, hfull]
      have hrec := ih { c with queue := c.queue ++ [x] } hAlive hCap
        (by simp; omega) (by simp; omega)
      simp only [sendSeq, hsend]
      simp only [List.length_append, List.length_cons, List.length_nil] at hrec
      have hk : k - c.queue.length = (k - (c.queue.length + 1)) + 1 := by omega
      simp [hrec, hk, List.replicate]
    · have hqe : c.queue.length = k := by omega
      have hrest : rest = [] := by
        have hl : rest.length = 0 := by omega
        exact List.length_eq_zero.mp hl
      have hfull : c.isFull = true := by
        simp [Chan.isFull, hCap]; omega
      have hsend : send_sync c x = (c, .error .FullBuffer) := by
        simp [send_sync, Chan.trySend, hAlive, hfull]
      subst hrest
      simp [sendSeq, hsend, hqe]

/-- Cloning handles only increments the strong-sender count. -/
theorem cloneHandles_spec {α : Type} :
    ∀ (n : Nat) (c : Chan α),
      (cloneHandles n c).senders = c.senders + n ∧
        (cloneHandles n c).queue = c.queue := by
  intro n
  induction n with
  | zero => intro c; simp [cloneHandles]
  | succ n ih =>
    intro c
    have := ih (cloneHandle c)
    simp only [cloneHandles]
    constructor
    · rw [this.1]; simp [cloneHandle]; omega
    · rw [this.2]; rfl

/-- Dropping handles only decrements the strong-sender count. -/
theorem dropHandles_spec {α : Type} :
    ∀ (n : Nat) (c : Chan α),
      (dropHandles n c).senders = c.senders - n ∧
        (dropHandles n c).queue = c.queue := by
  intro n
  induction n with
  | zero => intro c; simp [dropHandles]
  | succ n ih =>
    intro c
    have := ih (dropHandle c)
    simp only [dropHandles]
    constructor
    · rw [this.1]; simp [dropHandle]; omega
    · rw [this.2]; rfl

/-- On an empty queue the loop exits exactly when no sender remains. -/
theorem loopExits_empty {α : Type} (c : Chan α) (h : c.queue = []) :
    loopExits c = decide (c.senders = 0) := by
  by_cases hs : c.senders = 0
  · simp [loopExits, Chan.recvAsync, h, hs]
  · simp [loopExits, Chan.recvAsync, h, hs]

/-! Claim theorems. -/

/-- C1: handler invocations are strictly serialized per appliance.
`Appliance::run` spawns exactly one loop task (src/src/lib.rs:236-238),
embedded here as `LoopStep`, the only transition mutating the state.  From
a configuration with a pending envelope the loop has exactly one possible
action — invoke the handler on the head envelope, running it to completion
before the next receive — so at most one handler runs at any time and the
state changes only by that single handler application; no lock appears in
the model, mirroring the absence of any mutex in the code.  From an empty
queue no handler invocation is possible, and the completed loop run is the
sequential fold `handleMessages`. -/
theorem c1_handler_serialization {S M : Type} (handler : S → M → S)
    (s : S) (m : M) (ms : List M) (c : S × List M) :
    (LoopStep handler (s, m :: ms) c ↔ c = (handler s m, ms)) ∧
      (¬ LoopStep handler (s, ([] : List M)) c) ∧
      handleMessages handler s (m :: ms) = handleMessages handler (handler s m) ms := by
  refine ⟨⟨?_, ?_⟩, ?_, rfl⟩
  · intro h
    cases h
    rfl
  · intro h
    subst h
    exact LoopStep.handle s m ms
  · intro h
    nomatch h

/-- C1 witness: with the concrete handler `fun s m => s + m`, the loop
configuration `(0, [1, 2])` steps exactly to `(1, [2])`. -/
theorem c1_handler_serialization_witness :
    LoopStep (fun (s m : Nat) => s + m) (0, [1, 2]) (1, [2]) :=
  (c1_handler_serialization (fun (s m : Nat) => s + m) 0 1 [2] (1, [2])).1.mpr (by decide)

/-- C2: round-trip.  The envelope built by `InnerMessage::new` pushes into
the live reply slot exactly the value the handler returned, with the state
updated to exactly the handler's output; consequently a successful
`send_and_wait_sync` or `send_and_wait_async` returns `Ok` of exactly
`f(M)`, the handler's result, unmodified. -/
theorem c2_round_trip {M H R : Type} (handle_by : M → H → H × R) (m : M) (h : H) (t : Nat) :
    processWaitEnvelope handle_by m h ⟨none, true⟩ =
      ((handle_by m h).1, ⟨some (handle_by m h).2, true⟩) ∧
    send_and_wait_sync (runConstruct (InnerMessage H R) none)
        (InnerMessage.new handle_by m true)
        (ReplyEvent.arrival t (handle_by m h).2) none = Except.ok (handle_by m h).2 ∧
    send_and_wait_async (runConstruct (InnerMessage H R) none)
        (InnerMessage.new handle_by m true)
        (ReplyEvent.arrival t (handle_by m h).2) none = Except.ok (handle_by m h).2 := by
  refine ⟨rfl, rfl, rfl⟩

/-- C9: a dropped reply receiver makes delivery a silent no-op.  Sending
into a slot whose receiver is gone leaves the slot unchanged (the result
is discarded); the loop's invocation of such an envelope still completes,
updating the state exactly as it would with a live receiver, and the
delivery operation is total — no error or failure value exists for the
loop to observe. -/
theorem c9_dropped_receiver {M H R : Type} (handle_by : M → H → H × R)
    (m : M) (h : H) (r : R) (v : Option R) :
    ReplySlot.sendOk ⟨v, false⟩ r = ⟨v, false⟩ ∧
    processWaitEnvelope handle_by m h ⟨none, false⟩ = ((handle_by m h).1, ⟨none, false⟩) ∧
    (processWaitEnvelope handle_by m h ⟨none, false⟩).1 =
      (processWaitEnvelope handle_by m h ⟨none, true⟩).1 := by
  refine ⟨rfl, rfl, rfl⟩

/-- C10 counterexample: with the pending queue `[0, 1]` and a handler that
panics on message `0`, the loop (which contains no catch) aborts at the
first invocation and the already-pending envelope `1` is dropped without
ever being invoked — the fault is not isolated to the single invocation
and the pending envelope's delivery does not happen; a non-panicking
handler on the same queue delivers both envelopes. -/
theorem c10_loop_unwind_counterexample :
    handleMessagesUnwind (fun (s m : Nat) => if m = 0 then none else some (s + m))
        0 [0, 1] = (none, [1]) ∧
    handleMessagesUnwind (fun (s m : Nat) => some (s + m)) 0 [0, 1] = (some 1, []) := by
  refine ⟨rfl, rfl⟩

/-- C10 amended: the loop does not catch handler panics.  Every envelope
queued before the faulting one is fully invoked, the loop unwinds exactly
at the panicking invocation, and the envelopes still pending are dropped
undelivered; the panic value itself never appears in any caller-visible
send result (callers later observe only channel disconnection). -/
theorem c10_panic_terminates_loop {S M : Type} (handler : S → M → Option S)
    (s s2 : S) (pfx : List M) (m : M) (ms : List M)
    (hpfx : handleMessagesUnwind handler s pfx = (some s2, []))
    (hm : handler s2 m = none) :
    handleMessagesUnwind handler s (pfx ++ m :: ms) = (none, ms) := by
  induction pfx generalizing s with
  | nil =>
    have hs : s = s2 := by
      have := hpfx
      simp [handleMessagesUnwind] at this
      exact this
    subst hs
    simp [handleMessagesUnwind, hm]
  | cons p ps ih =>
    cases hp : handler s p with
    | none =>
      exfalso
      simp [handleMessagesUnwind, hp] at hpfx
    | some s3 =>
      have hrest : handleMessagesUnwind handler s3 ps = (some s2, []) := by
        simpa [handleMessagesUnwind, hp] using hpfx
      simpa [handleMessagesUnwind, hp] using ih s3 hrest

/-- C10 amended witness: prefix `[1, 2]` is fully handled (state `3`), the
handler panics on `0`, and the loop drops the pending suffix `[5]`. -/
theorem c10_panic_terminates_loop_witness :
    handleMessagesUnwind (fun (s m : Nat) => if m = 0 then none else some (s + m))
        0 ([1, 2] ++ 0 :: [5]) = (none, [5]) :=
  c10_panic_terminates_loop (fun (s m : Nat) => if m = 0 then none else some (s + m))
    0 3 [1, 2] 0 [5] rfl rfl

/-- C3 counterexample: a bounded appliance of capacity 1 whose mailbox is
at capacity.  The blocking variant `send_and_wait_sync` does fail with
`FullBuffer` there, but the suspending variant `send_and_wait_async`,
whose send phase is the suspending `send_async`, does not: it suspends
until there is room, completes the send, and here returns the reply — not
`FullBuffer`. -/
theorem c3_full_mailbox_counterexample :
    Chan.isFull ({ cap := some 1, queue := [()], senders := 1, receiverAlive := true } :
        Chan Unit) = true ∧
    send_and_wait_sync ({ cap := some 1, queue := [()], senders := 1, receiverAlive := true } :
        Chan Unit) () (ReplyEvent.arrival 0 (0 : Nat)) (some 5) =
      Except.error Error.FullBuffer ∧
    send_and_wait_async ({ cap := some 1, queue := [()], senders := 1, receiverAlive := true } :
        Chan Unit) () (ReplyEvent.arrival 0 (0 : Nat)) (some 5) = Except.ok 0 := by
  refine ⟨rfl, rfl, rfl⟩

/-- C3 amended: the suspending wait-for-reply variant has only two failure
outcomes, `Timeout` and `UnexpectedFailure`; it never returns
`FullBuffer`, because its send phase is the suspending `send_async`, which
on a bounded mailbox at capacity suspends until there is room instead of
failing.  (`FullBuffer` on send occurs only in the blocking variant
`send_and_wait_sync`.) -/
theorem c3_async_failure_outcomes {α R : Type} (c : Chan α) (x : α)
    (ev : ReplyEvent R) (timeout : Option Nat) :
    send_and_wait_async c x ev timeout ≠ Except.error Error.FullBuffer ∧
    (∀ e : Error, send_and_wait_async c x ev timeout = Except.error e →
      e = Error.Timeout ∨ e = Error.UnexpectedFailure) := by
  have hmain : ∀ e : Error, send_and_wait_async c x ev timeout = Except.error e →
      e = Error.Timeout ∨ e = Error.UnexpectedFailure := by
    intro e he
    cases hs : c.sendAsync x with
    | error u =>
      simp [send_and_wait_async, hs] at he
      exact Or.inr he.symm
    | ok c2 =>
      cases timeout with
      | none =>
        cases ev with
        | arrival t r => simp [send_and_wait_async, hs, recvForever] at he
        | droppedAt t =>
          simp [send_and_wait_async, hs, recvForever] at he
          exact Or.inr he.symm
      | some d =>
        cases ev with
        | arrival t r =>
          by_cases ht : t ≤ d
          · simp [send_and_wait_async, hs, raceReplyTimer, ht] at he
          · simp [send_and_wait_async, hs, raceReplyTimer, ht] at he
            exact Or.inl he.symm
        | droppedAt t =>
          by_cases ht : t ≤ d
          · simp [send_and_wait_async, hs, raceReplyTimer, ht] at he
            exact Or.inr he.symm
          · simp [send_and_wait_async, hs, raceReplyTimer, ht] at he
            exact Or.inl he.symm
  refine ⟨?_, hmain⟩
  intro h
  rcases hmain Error.FullBuffer h with h1 | h1 <;> exact Error.noConfusion h1

/-- C3 amended witness: on a fresh unbounded appliance whose loop
terminates before replying, the suspending variant fails, and the failure
is `UnexpectedFailure` — one of the two possible failure outcomes. -/
theorem c3_async_failure_outcomes_witness :
    send_and_wait_async (runConstruct Unit none) ()
        (ReplyEvent.droppedAt 0 : ReplyEvent Nat) none ≠
      Except.error Error.FullBuffer ∧
    (Error.UnexpectedFailure = Error.Timeout ∨
      Error.UnexpectedFailure = Error.UnexpectedFailure) :=
  ⟨(c3_async_failure_outcomes (runConstruct Unit none) ()
      (ReplyEvent.droppedAt 0 : ReplyEvent Nat) none).1,
    (c3_async_failure_outcomes (runConstruct Unit none) ()
      (ReplyEvent.droppedAt 0 : ReplyEvent Nat) none).2 Error.UnexpectedFailure rfl⟩

/-- C4: the appliance stores only a weak reference to its own mailbox's
sending side (`Arc::downgrade` in `Appliance::run`), so after construction
the strong count is exactly 1 — the returned handle; the self-reference
never counts toward liveness.  Cloning the handle `n` times and dropping
any `k ≤ n` of the `n + 1` strong handles leaves the channel open and the
loop running; dropping all `n + 1` closes the mailbox, the loop's next
receive observes the closed channel, and the loop exits. -/
theorem c4_weak_self_reference (α : Type) (cap : Option Nat) (n k : Nat) (hk : k ≤ n) :
    (runConstruct α cap).senders = 1 ∧
    loopExits (dropHandles k (cloneHandles n (runConstruct α cap))) = false ∧
    loopExits (dropHandles (n + 1) (cloneHandles n (runConstruct α cap))) = true := by
  have hclone := cloneHandles_spec n (runConstruct α cap)
  have hs1 : (cloneHandles n (runConstruct α cap)).senders = 1 + n := hclone.1
  have hq1 : (cloneHandles n (runConstruct α cap)).queue = [] := hclone.2
  refine ⟨rfl, ?_, ?_⟩
  · have hdrop := dropHandles_spec k (cloneHandles n (runConstruct α cap))
    rw [loopExits_empty _ (by rw [hdrop.2, hq1])]
    have : (dropHandles k (cloneHandles n (runConstruct α cap))).senders = 1 + n - k := by
      rw [hdrop.1, hs1]
    rw [this]
    simp
    omega
  · have hdrop := dropHandles_spec (n + 1) (cloneHandles n (runConstruct α cap))
    rw [loopExits_empty _ (by rw [hdrop.2, hq1])]
    have : (dropHandles (n + 1) (cloneHandles n (runConstruct α cap))).senders = 0 := by
      rw [hdrop.1, hs1]; omega
    rw [this]
    simp

/-- C4 witness: an appliance with two extra handle clones stays alive
after one drop and terminates after all three handles are dropped. -/
theorem c4_weak_self_reference_witness :
    (runConstruct Unit none).senders = 1 ∧
    loopExits (dropHandles 1 (cloneHandles 2 (runConstruct Unit none))) = false ∧
    loopExits (dropHandles 3 (cloneHandles 2 (runConstruct Unit none))) = true :=
  c4_weak_self_reference Unit none 2 1 (by decide)

/-- C5: every send path performed after the appliance has terminated (the
mailbox's receiving side is gone) reports the terminal condition as
`UnexpectedFailure` — the code unifies the terminal state into that
variant in `send_sync`, `send_async`, `send_and_wait_sync` and
`send_and_wait_async`, while the (unused by those paths) `From`
conversion in src/src/error.rs maps disconnection to `Stopped` — and both
`UnexpectedFailure` and `Stopped` are distinct from the transient
`Timeout` and `FullBuffer` errors. -/
theorem c5_terminated_send_error {α R : Type} (c : Chan α) (x : α)
    (ev : ReplyEvent R) (d : Option Nat) (hc : c.receiverAlive = false) :
    (send_sync c x).2 = Except.error Error.UnexpectedFailure ∧
    (send_async c x).2 = Except.error Error.UnexpectedFailure ∧
    send_and_wait_sync c x ev d = Except.error Error.UnexpectedFailure ∧
    send_and_wait_async c x ev d = Except.error Error.UnexpectedFailure ∧
    Error.fromTrySendError (TrySendError.Disconnected x) = Error.Stopped ∧
    Error.UnexpectedFailure ≠ Error.Timeout ∧
    Error.UnexpectedFailure ≠ Error.FullBuffer ∧
    Error.Stopped ≠ Error.Timeout ∧
    Error.Stopped ≠ Error.FullBuffer := by
  refine ⟨?_, ?_, ?_, ?_, rfl, by decide, by decide, by decide, by decide⟩
  · simp [send_sync, Chan.trySend, hc]
  · simp [send_async, Chan.sendAsync, hc]
  · simp [send_and_wait_sync, Chan.trySend, hc]
  · simp [send_and_wait_async, Chan.sendAsync, hc]

/-- C5 witness: on a concrete terminated appliance every send path
reports `UnexpectedFailure`. -/
theorem c5_terminated_send_error_witness :
    ({ cap := none, queue := [], senders := 0, receiverAlive := false } :
        Chan Unit).receiverAlive = false ∧
    (send_sync ({ cap := none, queue := [], senders := 0, receiverAlive := false } :
        Chan Unit) ()).2 = Except.error Error.UnexpectedFailure :=
  ⟨rfl, (c5_terminated_send_error
      ({ cap := none, queue := [], senders := 0, receiverAlive := false } : Chan Unit) ()
      (ReplyEvent.droppedAt 0 : ReplyEvent Unit) none rfl).1⟩

/-- C6: on a fresh bounded appliance of capacity `k` whose loop is not
draining, a batch of `k + 1` non-suspending `send_sync` calls yields `k`
successes followed by one `FullBuffer` rejection; and on a terminated
appliance the non-suspending send returns `UnexpectedFailure`.  (The
non-suspending send is total in the model: it returns immediately, never
blocking.) -/
theorem c6_bounded_capacity {α : Type} (k : Nat) (xs : List α)
    (hlen : xs.length = k + 1) :
    (sendSeq (runConstruct α (some k)) xs).2 =
      List.replicate k (Except.ok ()) ++ [Except.error Error.FullBuffer] ∧
    (∀ (c : Chan α) (x : α), c.receiverAlive = false →
      (send_sync c x).2 = Except.error Error.UnexpectedFailure) := by
  constructor
  · have h := sendSeq_bounded_overfill k xs (runConstruct α (some k)) rfl rfl
      (by simp [runConstruct]) (by simp [runConstruct, hlen])
    simpa [runConstruct] using h
  · intro c x hc
    simp [send_sync, Chan.trySend, hc]

/-- C6 witness: with capacity 2 and three sends, the first two succeed and
the third fails with `FullBuffer`. -/
theorem c6_bounded_capacity_witness :
    ([(), (), ()] : List Unit).length = 2 + 1 ∧
    (sendSeq (runConstruct Unit (some 2)) [(), (), ()]).2 =
      List.replicate 2 (Except.ok ()) ++ [Except.error Error.FullBuffer] :=
  ⟨rfl, (c6_bounded_capacity 2 [(), (), ()] rfl).1⟩

/-- C7: timeout boundary.  On an open, non-full appliance: a reply
available within the deadline is returned — never a false-positive
`Timeout` (in the suspending variant the reply future is polled first, so
it wins the race); a reply arriving only after the deadline yields
`Timeout`; and whenever `Timeout` is returned, the waiter observed the
full deadline `d` elapse — `Timeout` is produced only at or after `d`,
both in the blocking variant (`recv_timeout`) and in the suspending
variant (the reply/timer race, whose loser is simply dropped). -/
theorem c7_timeout_boundary {α R : Type} (c : Chan α) (x : α) (t d : Nat) (r : R)
    (hc : c.receiverAlive = true) (hf : c.isFull = false) :
    (t ≤ d → send_and_wait_sync c x (ReplyEvent.arrival t r) (some d) = Except.ok r) ∧
    (d < t → send_and_wait_sync c x (ReplyEvent.arrival t r) (some d) =
      Except.error Error.Timeout) ∧
    (∀ ev : ReplyEvent R, send_and_wait_sync c x ev (some d) =
      Except.error Error.Timeout → (recvTimeout ev d).2 = d) ∧
    (t ≤ d → send_and_wait_async c x (ReplyEvent.arrival t r) (some d) = Except.ok r) ∧
    (∀ ev : ReplyEvent R, send_and_wait_async c x ev (some d) =
      Except.error Error.Timeout → (raceReplyTimer ev d).2 = d) := by
  have htry : (c.trySend x).2 = .ok () := by
    simp [Chan.trySend, hc, hf]
  have hsend : c.sendAsync x = .ok { c with queue := c.queue ++ [x] } := by
    simp [Chan.sendAsync, hc]
  refine ⟨?_, ?_, ?_, ?_, ?_⟩
  · intro ht
    simp [send_and_wait_sync, htry, recvTimeout, ht]
  · intro ht
    simp [send_and_wait_sync, htry, recvTimeout, Nat.not_le.mpr ht]
  · intro ev he
    cases ev with
    | arrival t2 r2 =>
      by_cases h2 : t2 ≤ d
      · simp [send_and_wait_sync, htry, recvTimeout, h2] at he
      · simp [recvTimeout, h2]
    | droppedAt t2 =>
      by_cases h2 : t2 ≤ d
      · simp [send_and_wait_sync, htry, recvTimeout, h2] at he
      · simp [recvTimeout, h2]
  · intro ht
    simp [send_and_wait_async, hsend, raceReplyTimer, ht]
  · intro ev he
    cases ev with
    | arrival t2 r2 =>
      by_cases h2 : t2 ≤ d
      · simp [send_and_wait_async, hsend, raceReplyTimer, h2] at he
      · simp [raceReplyTimer, h2]
    | droppedAt t2 =>
      by_cases h2 : t2 ≤ d
      · simp [send_and_wait_async, hsend, raceReplyTimer, h2] at he
      · simp [raceReplyTimer, h2]

/-- C7 witness: on a fresh unbounded appliance, a reply arriving at tick 1
against deadline 2 is returned rather than timing out. -/
theorem c7_timeout_boundary_witness :
    (runConstruct Unit none).receiverAlive = true ∧
    (runConstruct Unit none).isFull = false ∧
    send_and_wait_sync (runConstruct Unit none) ()
      (ReplyEvent.arrival 1 (0 : Nat)) (some 2) = Except.ok 0 :=
  ⟨rfl, rfl,
    (c7_timeout_boundary (runConstruct Unit none) () 1 2 (0 : Nat) rfl rfl).1 (by decide)⟩

/-- C8: FIFO per sender-to-mailbox path.  Messages sent through a single
handle land in the mailbox queue exactly in send order (each accepted
`send_sync` appends to the tail; on the unbounded appliance every send is
accepted), and the loop's invocation trace visits the queued envelopes in
exactly that order — handler invocation order equals send order. -/
theorem c8_fifo_order {α S : Type} (handler : S → α → S) (s : S) (msgs : List α) :
    (sendSeq (runConstruct α none) msgs).1.queue = msgs ∧
    (sendSeq (runConstruct α none) msgs).2 =
      List.replicate msgs.length (Except.ok ()) ∧
    (loopTrace handler s (sendSeq (runConstruct α none) msgs).1.queue).map Prod.fst =
      msgs := by
  have h := sendSeq_unbounded msgs (runConstruct α none) rfl rfl
  have hq : (sendSeq (runConstruct α none) msgs).1.queue = msgs := by
    rw [h.1]; rfl
  refine ⟨hq, h.2, ?_⟩
  rw [hq]
  exact loopTrace_map_fst handler msgs s

end Appliance
